import Mathlib

/-!
Verification of the fileio repository's accessor/path/bulk-transfer layer.

Shallow embedding of:
- `fileio/providers/s3_aws.py` (`FileS3Path`: `__new__`, `_init`, `upload_file`,
  `download_file`, `async_upload_file`, `batch_upload_files`, `batch_download_files`);
  `fileio/providers/s3c.py` is line-for-line identical up to the scheme prefix
  (`s3c` instead of `s3`), so one embedding covers both.
- `fileio/aiopath/wrap.py` (`func_to_async_func` / `to_thread`).
- `fileio/utils/configs.py` (`update_config` of the provider settings classes and of
  `Settings`, and the accessor-reset part of the `update_auth` entry points).

Effects on the accessor (boto single-object upload, transfer-manager creation,
submissions and shutdown) are modelled as an event trace; exceptions as `Except`.
Collaborators that live outside the sampled sources (the glob expander, the
existence checks `exists`/`async_exists`, `get_path_key`, and the transfer
submissions themselves, which may raise) are oracles passed in as parameters.
-/

/-- Path flavour axis: POSIX vs Windows segment semantics (`_pathz_posix_flavour`
vs `_pathz_windows_flavour` in the sources). -/
inductive Flavour where
  | posix
  | windows
deriving DecidableEq, Repr

/-- Modelled from the spec: `flavour.is_supported` on a given host — a flavour is
supported exactly on the matching host platform (the flavour objects themselves
live outside src/). -/
def isSupported (f host : Flavour) : Bool := f == host

/-- Pure path value: an ordered list of segments (the syntactic part of a
pathlib-style path that the sampled methods use: `name`, `parent`, `joinpath`,
`as_posix`). -/
structure FPath where
  segs : List String
deriving DecidableEq, Repr

/-- The final name component (`Path.name`). -/
def FPath.name (p : FPath) : String := (p.segs.getLast?).getD ""

/-- The parent path (`Path.parent`). -/
def FPath.parent (p : FPath) : FPath := ⟨p.segs.dropLast⟩

/-- Appending one component (`Path.joinpath`). -/
def FPath.joinpath (p : FPath) (n : String) : FPath := ⟨p.segs ++ [n]⟩

/-- String form (`Path.as_posix`). -/
def FPath.as_posix (p : FPath) : String := String.intercalate "/" p.segs

/-- Error values raised by the embedded code, named after the spec's error kinds;
the comments give the concrete Python exception they stand for. -/
inductive Err where
  /-- `FileExistsError` in `upload_file` / `async_upload_file`, and the
  `assert overwrite or not output_file.exists()` failure in `download_file`. -/
  | alreadyExists
  /-- The usage asserts: `assert output_file or output_dir` in `download_file`
  and `assert files or glob_path` in `batch_upload_files`. -/
  | invalidArgument
  /-- `NotImplementedError` raised by `__new__` when the flavour is unsupported. -/
  | notImplemented
  /-- The spec's `UnsupportedPlatform` kind; no embedded code path produces it. -/
  | unsupportedPlatform
  /-- An arbitrary exception propagating out of a collaborator call
  (an existence check or a transfer submission). -/
  | raised
deriving DecidableEq, Repr

/-- One observable call on the accessor; `acc` identifies which accessor instance
(`self._accessor`) performed it. -/
inductive S3Event where
  /-- `self._accessor.boto.upload_file(Bucket=…, Key=…, Filename=…)`. -/
  | botoUpload (acc : Nat) (bucket key filename : String)
  /-- `s3t = self._accessor.s3t()` — transfer-manager creation. -/
  | s3tCreate (acc : Nat)
  /-- `s3t.upload(src, bucket, key)`. -/
  | s3tUpload (acc : Nat) (src bucket key : String)
  /-- `s3t.download(bucket, key, dst)`. -/
  | s3tDownload (acc : Nat) (bucket key dst : String)
  /-- `s3t.shutdown()`. -/
  | s3tShutdown (acc : Nat)
deriving DecidableEq, Repr

/-- Recognizes the transfer-manager shutdown event. -/
def isShutdown : S3Event → Bool
  | S3Event.s3tShutdown _ => true
  | _ => false

/-- The accessor instance an event was performed on. -/
def eventAcc : S3Event → Nat
  | S3Event.botoUpload a _ _ _ => a
  | S3Event.s3tCreate a => a
  | S3Event.s3tUpload a _ _ _ => a
  | S3Event.s3tDownload a _ _ _ => a
  | S3Event.s3tShutdown a => a

/-- Boolean success test for `Except`. -/
def isOkB {ε α : Type} : Except ε α → Bool
  | Except.ok _ => true
  | Except.error _ => false

/-- Modelled from the spec: the Accessor Registry (`get_accessor` /
`FileSysManager.get_accessor` live outside src/). Accessor instances are
identified by creation number; `cache` maps scheme → live instance,
`next` is the next fresh instance id. -/
structure Registry where
  cache : List (String × Nat)
  next : Nat
deriving DecidableEq, Repr

/-- Modelled from the spec: `get_or_create(scheme)` returns the cached accessor
for the scheme, creating and caching a fresh one if absent. -/
def Registry.getAccessor (r : Registry) (scheme : String) : Nat × Registry :=
  match r.cache.lookup scheme with
  | some a => (a, r)
  | none => (r.next, ⟨(scheme, r.next) :: r.cache, r.next + 1⟩)

/-- Modelled from the spec: `invalidate(scheme)` discards the cached accessor so
the next `get_or_create` rebuilds it. -/
def Registry.invalidate (r : Registry) (scheme : String) : Registry :=
  ⟨r.cache.filter (fun p => p.1 ≠ scheme), r.next⟩

/-- State of a constructed `FileS3Path` instance: `bucket` is `self._bucket`,
`path` the key path under the bucket, `accessor` the reference stored into
`self._accessor` by `_init`, `flavour` the class's `_flavour`. -/
structure FileS3Path where
  bucket : String
  path : FPath
  accessor : Nat
  flavour : Flavour
deriving DecidableEq, Repr

/-- Embedding of `FileS3Path.__new__` (s3_aws.py lines 52-62) combined with
`_init` (lines 47-50): the class is coerced to `cls._win_pathz` on an NT host and
`cls._posix_pathz` otherwise — for `FileS3Path` and every subclass, so the
`requested` flavour is discarded; then `NotImplementedError` is raised if the
resulting flavour is unsupported; finally `_init` stores
`get_accessor(self._prefix)` into `self._accessor`. -/
def FileS3Path.new (host requested : Flavour) (r : Registry)
    (bucket : String) (p : FPath) : Except Err (FileS3Path × Registry) :=
  let cls : Flavour := if host == Flavour.windows then Flavour.windows else Flavour.posix
  if !(isSupported cls host) then Except.error Err.notImplemented
  else
    let a := r.getAccessor "s3"
    Except.ok (⟨bucket, p, a.1, cls⟩, a.2)

/-- Embedding of `FileS3Path.upload_file` (s3_aws.py lines 65-78).
`gpk` models `self.get_path_key` (defined outside src/); `ex` models the
`.exists()` check on the `dest` argument — note that `dest` is the *local
source file* (boto receives it as `Filename=dest.as_posix()`), while the remote
destination is `Bucket=self._bucket, Key=self.get_path_key(filename)` derived
from `self`. `sub` models the outcome of the submitted single-object transfer:
boto3's `upload_file` collects the transfer future internally
(`future.result()`) and re-raises its exception synchronously, so a failed
transfer surfaces as the call's error after the primitive was invoked. -/
def FileS3Path.upload_file (gpk : String → String) (ex : FPath → Bool)
    (sub : S3Event → Except Err Unit)
    (st : FileS3Path) (dest : FPath) (filename : Option String)
    (overwrite : Bool) : List S3Event × Except Err FPath :=
  if !overwrite && ex dest then ([], Except.error Err.alreadyExists)
  else
    let fname := filename.getD st.path.name
    let ev := S3Event.botoUpload st.accessor st.bucket (gpk fname) dest.as_posix
    ([ev],
     match sub ev with
     | Except.error e => Except.error e
     | Except.ok _ => Except.ok (st.path.parent.joinpath fname))

/-- Embedding of `FileS3Path.async_upload_file` (s3_aws.py lines 105-123).
The existence check is `await dest.async_exists()` (same oracle `ex`); the
transfer goes through the transfer manager instead of the boto single-object
primitive, and its failure mode differs: `s3t.upload(...)` returns a future
that the method never inspects, and `s3t.shutdown()` waits for completion
without re-raising, so the transfer's outcome (`sub ev`, computed and
discarded) is swallowed and the method returns the destination path even when
the transfer failed. -/
def FileS3Path.async_upload_file (gpk : String → String) (ex : FPath → Bool)
    (sub : S3Event → Except Err Unit)
    (st : FileS3Path) (dest : FPath) (filename : Option String)
    (overwrite : Bool) : List S3Event × Except Err FPath :=
  if !overwrite && ex dest then ([], Except.error Err.alreadyExists)
  else
    let fname := filename.getD st.path.name
    let ev := S3Event.s3tUpload st.accessor dest.as_posix st.bucket (gpk fname)
    let _outcome := sub ev
    ([S3Event.s3tCreate st.accessor, ev, S3Event.s3tShutdown st.accessor],
     Except.ok (st.path.parent.joinpath fname))

/-- Embedding of `func_to_async_func` / `to_thread` (aiopath/wrap.py lines 16-35):
the wrapped coroutine runs the original function on the worker pool with the same
arguments and returns its result, so in the shallow embedding the bridge is the
identity on the function's extension. -/
def funcToAsyncFunc {α β : Type} (f : α → β) : α → β := f

/-- Core of `FileS3Path.download_file` after the destination has been resolved
(s3_aws.py lines 94-103): `assert overwrite or not output_file.exists()`
(`AssertionError` mapped to the spec's `AlreadyExists`), then transfer-manager
creation, one `s3t.download` submission, and `s3t.shutdown()` — the shutdown
only on the normal path, since the source has no try/finally. -/
def downloadCore (gpk : String → String) (ex : FPath → Except Err Bool)
    (sub : S3Event → Except Err Unit) (st : FileS3Path) (out : FPath)
    (overwrite : Bool) : List S3Event × Except Err FPath :=
  match (if overwrite then Except.ok false else ex out) with
  | Except.error e => ([], Except.error e)
  | Except.ok true => ([], Except.error Err.alreadyExists)
  | Except.ok false =>
    let ev := S3Event.s3tDownload st.accessor st.bucket (gpk st.path.name) out.as_posix
    match sub ev with
    | Except.error e => ([S3Event.s3tCreate st.accessor], Except.error e)
    | Except.ok _ =>
      ([S3Event.s3tCreate st.accessor, ev, S3Event.s3tShutdown st.accessor],
       Except.ok out)

/-- Embedding of `FileS3Path.download_file` (s3_aws.py lines 80-103).
`ex` models `output_file.exists()` and may raise; `sub` models the
`s3t.download(...)` submission and may raise. The destination is
`output_file or output_dir.joinpath(filename or self.name)`; supplying neither
fails the `assert output_file or output_dir` usage assert. -/
def FileS3Path.download_file (gpk : String → String)
    (ex : FPath → Except Err Bool) (sub : S3Event → Except Err Unit)
    (st : FileS3Path) (output_file output_dir : Option FPath)
    (filename : Option String) (overwrite : Bool) :
    List S3Event × Except Err FPath :=
  match output_file, output_dir with
  | none, none => ([], Except.error Err.invalidArgument)
  | of, od =>
    downloadCore gpk ex sub st
      (match of with
       | some f => f
       | none => (od.getD ⟨[]⟩).joinpath (filename.getD st.path.name)) overwrite

/-- Loop body of `FileS3Path.batch_upload_files` (s3_aws.py lines 143-151):
for each file, skip when `not overwrite and skip_existing and file.exists()`
(note: the check is on the source entry `file`), else submit `s3t.upload` and
append `self.parent.joinpath(file.name)` to the results. `ex` models
`file.exists()`, `sub` the submission; either may raise, aborting the loop. -/
def batchUploadLoop (gpk : String → String) (ex : FPath → Except Err Bool)
    (sub : S3Event → Except Err Unit) (st : FileS3Path)
    (overwrite skipExisting : Bool) :
    List FPath → List S3Event × Except Err (List FPath)
  | [] => ([], Except.ok [])
  | f :: fs =>
    match (if !overwrite && skipExisting then ex f else Except.ok false) with
    | Except.error e => ([], Except.error e)
    | Except.ok true => batchUploadLoop gpk ex sub st overwrite skipExisting fs
    | Except.ok false =>
      let ev := S3Event.s3tUpload st.accessor f.as_posix st.bucket (gpk f.name)
      match sub ev with
      | Except.error e => ([], Except.error e)
      | Except.ok _ =>
        let rest := batchUploadLoop gpk ex sub st overwrite skipExisting fs
        (ev :: rest.1, rest.2.map (fun rs => st.path.parent.joinpath f.name :: rs))

/-- Python truthiness of the optional `files` argument. -/
def filesTruthy : Option (List FPath) → Bool
  | none => false
  | some xs => !xs.isEmpty

/-- Python truthiness of the optional `glob_path` argument. -/
def globTruthy : Option String → Bool
  | none => false
  | some s => !s.isEmpty

/-- Embedding of `FileS3Path.batch_upload_files` (s3_aws.py lines 125-153):
`assert files or glob_path`; if `glob_path` is truthy the file list is replaced
by `list(self.glob(glob_path))` (the glob expander lives outside src/ and is the
oracle `globFn`); then one transfer manager is created, the loop runs, and
`s3t.shutdown()` is executed after the loop (only on the normal exit —
there is no try/finally in the source). -/
def FileS3Path.batch_upload_files (gpk : String → String)
    (ex : FPath → Except Err Bool) (sub : S3Event → Except Err Unit)
    (globFn : String → List FPath) (st : FileS3Path)
    (files : Option (List FPath)) (glob_path : Option String)
    (overwrite skipExisting : Bool) : List S3Event × Except Err (List FPath) :=
  if !(filesTruthy files || globTruthy glob_path) then
    ([], Except.error Err.invalidArgument)
  else
    let fl : List FPath :=
      match glob_path with
      | some g => if !g.isEmpty then globFn g else files.getD []
      | none => files.getD []
    let res := batchUploadLoop gpk ex sub st overwrite skipExisting fl
    match res.2 with
    | Except.error e => (S3Event.s3tCreate st.accessor :: res.1, Except.error e)
    | Except.ok rs =>
      (S3Event.s3tCreate st.accessor :: res.1 ++ [S3Event.s3tShutdown st.accessor],
       Except.ok rs)

/-- Loop body of `FileS3Path.batch_download_files` (s3_aws.py lines 170-179):
skip when `not overwrite and skip_existing and file.exists()` (the check is on
the remote source entry `file`, not on the local destination), else submit
`s3t.download` and append `output_dir.joinpath(file.name)`. -/
def batchDownloadLoop (gpk : String → String) (ex : FPath → Except Err Bool)
    (sub : S3Event → Except Err Unit) (st : FileS3Path) (outputDir : FPath)
    (overwrite skipExisting : Bool) :
    List FPath → List S3Event × Except Err (List FPath)
  | [] => ([], Except.ok [])
  | f :: fs =>
    match (if !overwrite && skipExisting then ex f else Except.ok false) with
    | Except.error e => ([], Except.error e)
    | Except.ok true => batchDownloadLoop gpk ex sub st outputDir overwrite skipExisting fs
    | Except.ok false =>
      let out := outputDir.joinpath f.name
      let ev := S3Event.s3tDownload st.accessor st.bucket (gpk f.name) out.as_posix
      match sub ev with
      | Except.error e => ([], Except.error e)
      | Except.ok _ =>
        let rest := batchDownloadLoop gpk ex sub st outputDir overwrite skipExisting fs
        (ev :: rest.1, rest.2.map (fun rs => out :: rs))

/-- Embedding of `FileS3Path.batch_download_files` (s3_aws.py lines 155-181):
glob-expand (no assert in this function), create one transfer manager, run the
loop, and call `s3t.shutdown()` after the loop (normal exit only — no
try/finally in the source). -/
def FileS3Path.batch_download_files (gpk : String → String)
    (ex : FPath → Except Err Bool) (sub : S3Event → Except Err Unit)
    (globFn : String → List FPath) (st : FileS3Path)
    (glob_path : String) (outputDir : FPath)
    (overwrite skipExisting : Bool) : List S3Event × Except Err (List FPath) :=
  let fl := globFn glob_path
  let res := batchDownloadLoop gpk ex sub st outputDir overwrite skipExisting fl
  match res.2 with
  | Except.error e => (S3Event.s3tCreate st.accessor :: res.1, Except.error e)
  | Except.ok rs =>
    (S3Event.s3tCreate st.accessor :: res.1 ++ [S3Event.s3tShutdown st.accessor],
     Except.ok rs)

/-- C2: the overwrite guard of `upload_file` inspects its `dest` argument — the
*local source file* handed to boto as `Filename` — never the remote destination
(`Bucket`/`Key` derived from `self`). First conjunct, the normal upload case:
the local source `src.txt` exists, the remote destination `dir/obj` does not
(the existence oracle holds only for the source), `overwrite=False` — the code
raises `FileExistsError` with an empty trace (no primitive invoked), where the
claim mandates delegation to the single-object primitive and the resulting
remote path. Second conjunct, the inverse: the remote destination exists and
the source path does not satisfy the oracle — the code invokes the primitive
and returns the path, where the claim mandates `AlreadyExists` with no
transfer. -/
theorem upload_file_checks_source_not_destination :
    FileS3Path.upload_file id (fun p => decide (p.segs = ["src.txt"]))
        (fun _ => Except.ok ()) ⟨"bkt", ⟨["dir", "obj"]⟩, 0, Flavour.posix⟩
        ⟨["src.txt"]⟩ none false
      = ([], Except.error Err.alreadyExists)
    ∧ FileS3Path.upload_file id (fun p => decide (p.segs = ["dir", "obj"]))
        (fun _ => Except.ok ()) ⟨"bkt", ⟨["dir", "obj"]⟩, 0, Flavour.posix⟩
        ⟨["src.txt"]⟩ none false
      = ([S3Event.botoUpload 0 "bkt" "obj" "src.txt"],
         Except.ok ⟨["dir", "obj"]⟩) :=
  ⟨rfl, rfl⟩

/-- C7: `download_file` called with neither `output_file` nor `output_dir`
fails with `InvalidArgument` (the `assert output_file or output_dir` usage
assert) and the event trace is empty: the transfer manager is never created and
no transfer is attempted, for every existence oracle, submission oracle and
remaining arguments. -/
theorem download_file_requires_destination (gpk : String → String)
    (ex : FPath → Except Err Bool) (sub : S3Event → Except Err Unit)
    (st : FileS3Path) (filename : Option String) (overwrite : Bool) :
    FileS3Path.download_file gpk ex sub st none none filename overwrite
      = ([], Except.error Err.invalidArgument) := rfl

/-- C1: the skip check of the batch loops inspects the *source* entry
(`file.exists()`), never the destination. Concrete failing input: one remote
object `logs/a.txt` matched by the glob, local destination `out/a.txt` absent
(the existence oracle holds only for the remote source), `overwrite=False`,
`skip_existing=True`. M = 1 expanded entry, N = 0 existing destinations, yet the
call submits zero transfers and returns zero paths, where the claim mandates
M − N = 1 transfer and 1 resulting path. -/
theorem batch_download_skip_inspects_source :
    FileS3Path.batch_download_files id
        (fun p => Except.ok (decide (p.segs = ["logs", "a.txt"])))
        (fun _ => Except.ok ()) (fun _ => [⟨["logs", "a.txt"]⟩])
        ⟨"bkt", ⟨["logs"]⟩, 0, Flavour.posix⟩ "*.txt" ⟨["out"]⟩ false true
      = ([S3Event.s3tCreate 0, S3Event.s3tShutdown 0], Except.ok []) := rfl

/-- The upload loop itself never emits a transfer-manager shutdown event. -/
lemma batchUploadLoop_count_shutdown (gpk : String → String)
    (ex : FPath → Except Err Bool) (sub : S3Event → Except Err Unit)
    (st : FileS3Path) (ow sk : Bool) (fl : List FPath) :
    (batchUploadLoop gpk ex sub st ow sk fl).1.countP isShutdown = 0 := by
  induction fl with
  | nil => rfl
  | cons f fs ih =>
    rw [batchUploadLoop]
    cases h1 : (if !ow && sk then ex f else Except.ok false) with
    | error e => simp
    | ok b =>
      cases b with
      | true => simpa using ih
      | false =>
        cases h2 : sub (S3Event.s3tUpload st.accessor f.as_posix st.bucket (gpk f.name)) with
        | error e => simp [h2]
        | ok u => simp [h2, List.countP_cons, isShutdown, ih]

/-- The download loop itself never emits a transfer-manager shutdown event. -/
lemma batchDownloadLoop_count_shutdown (gpk : String → String)
    (ex : FPath → Except Err Bool) (sub : S3Event → Except Err Unit)
    (st : FileS3Path) (odir : FPath) (ow sk : Bool) (fl : List FPath) :
    (batchDownloadLoop gpk ex sub st odir ow sk fl).1.countP isShutdown = 0 := by
  induction fl with
  | nil => rfl
  | cons f fs ih =>
    rw [batchDownloadLoop]
    cases h1 : (if !ow && sk then ex f else Except.ok false) with
    | error e => simp
    | ok b =>
      cases b with
      | true => simpa using ih
      | false =>
        cases h2 : sub (S3Event.s3tDownload st.accessor st.bucket (gpk f.name)
            (odir.joinpath f.name).as_posix) with
        | error e => simp [h2]
        | ok u => simp [h2, List.countP_cons, isShutdown, ih]

/-- Shutdown count of the common epilogue of the two batch orchestrators: one
transfer-manager creation before the loop trace, one shutdown appended only on
the loop's success. -/
lemma countShutdownWrap (acc : Nat) (tr : List S3Event)
    (res : Except Err (List FPath)) (h : tr.countP isShutdown = 0) :
    ((match res with
      | Except.error e => ((S3Event.s3tCreate acc :: tr : List S3Event),
          (Except.error e : Except Err (List FPath)))
      | Except.ok rs =>
          (S3Event.s3tCreate acc :: tr ++ [S3Event.s3tShutdown acc],
           Except.ok rs)) : List S3Event × Except Err (List FPath)).1.countP isShutdown
      = if isOkB ((match res with
      | Except.error e => ((S3Event.s3tCreate acc :: tr : List S3Event),
          (Except.error e : Except Err (List FPath)))
      | Except.ok rs =>
          (S3Event.s3tCreate acc :: tr ++ [S3Event.s3tShutdown acc],
           Except.ok rs)) : List S3Event × Except Err (List FPath)).2
        then 1 else 0 := by
  cases res <;>
    simp [isOkB, isShutdown, List.countP_cons, List.countP_append, h]

/-- The resolved-destination core of `download_file` tears the transfer manager
down exactly once on success and zero times on any error exit. -/
lemma downloadCore_count_shutdown (gpk : String → String)
    (ex : FPath → Except Err Bool) (sub : S3Event → Except Err Unit)
    (st : FileS3Path) (out : FPath) (ow : Bool) :
    (downloadCore gpk ex sub st out ow).1.countP isShutdown
      = if isOkB (downloadCore gpk ex sub st out ow).2 then 1 else 0 := by
  unfold downloadCore
  split
  · rfl
  · rfl
  · cases hsub : sub (S3Event.s3tDownload st.accessor st.bucket (gpk st.path.name)
        out.as_posix) with
    | error e => simp [hsub, isShutdown, isOkB]
    | ok u => simp [hsub, isShutdown, isOkB, List.countP_cons]

/-- C3 counterexample: a batch upload in which the first existence check raises
terminates with an error and a trace containing zero `s3t.shutdown()` events —
the source has no try/finally, so the transfer manager is not torn down on the
exception exit path, where the claim mandates exactly one shutdown per call. -/
theorem shutdown_skipped_on_raise_counterexample :
    (FileS3Path.batch_upload_files id (fun _ => Except.error Err.raised)
        (fun _ => Except.ok ()) (fun _ => [])
        ⟨"bkt", ⟨["dir"]⟩, 0, Flavour.posix⟩ (some [⟨["f.txt"]⟩]) none false true).1.countP
          isShutdown = 0
    ∧ isOkB (FileS3Path.batch_upload_files id (fun _ => Except.error Err.raised)
        (fun _ => Except.ok ()) (fun _ => [])
        ⟨"bkt", ⟨["dir"]⟩, 0, Flavour.posix⟩ (some [⟨["f.txt"]⟩]) none false true).2 = false := by
  decide

/-- C3 amended: in each orchestrated transfer call that creates a transfer
manager (`batch_upload_files`, `batch_download_files`, `download_file`), the
transfer manager's shutdown runs exactly once on the normal-completion exit path
and zero times when the call terminates with an exception (an existence check or
an individual transfer submission raising) — there is no try/finally, so a
mid-batch failure skips the teardown. -/
theorem shutdown_once_iff_normal_exit
    (gpk : String → String) (ex : FPath → Except Err Bool)
    (sub : S3Event → Except Err Unit) (globFn : String → List FPath)
    (st : FileS3Path) (files : Option (List FPath)) (glob1 : Option String)
    (ow1 sk1 : Bool) (glob2 : String) (odir : FPath) (ow2 sk2 : Bool)
    (ofile odir2 : Option FPath) (fname : Option String) (ow3 : Bool) :
    ((FileS3Path.batch_upload_files gpk ex sub globFn st files glob1 ow1 sk1).1.countP
        isShutdown
      = if isOkB (FileS3Path.batch_upload_files gpk ex sub globFn st files glob1 ow1 sk1).2
        then 1 else 0)
    ∧ ((FileS3Path.batch_download_files gpk ex sub globFn st glob2 odir ow2 sk2).1.countP
        isShutdown
      = if isOkB (FileS3Path.batch_download_files gpk ex sub globFn st glob2 odir ow2 sk2).2
        then 1 else 0)
    ∧ ((FileS3Path.download_file gpk ex sub st ofile odir2 fname ow3).1.countP isShutdown
      = if isOkB (FileS3Path.download_file gpk ex sub st ofile odir2 fname ow3).2
        then 1 else 0) := by
  refine ⟨?_, ?_, ?_⟩
  · unfold FileS3Path.batch_upload_files
    split
    · rfl
    · exact countShutdownWrap st.accessor _ _
        (batchUploadLoop_count_shutdown gpk ex sub st ow1 sk1 _)
  · unfold FileS3Path.batch_download_files
    exact countShutdownWrap st.accessor _ _
      (batchDownloadLoop_count_shutdown gpk ex sub st odir ow2 sk2 _)
  · unfold FileS3Path.download_file
    rcases ofile with _ | f <;> rcases odir2 with _ | d
    · rfl
    all_goals exact downloadCore_count_shutdown gpk ex sub st _ ow3

/-- C5 counterexample: `async_upload_file` is not the synchronous `upload_file`
executed through the sync/async bridge. First conjunct: at a concrete input
with a succeeding transfer the accessor effects differ (transfer-manager
create/upload/shutdown versus the boto single-object primitive). Second
conjunct: the *error behaviour* differs too — at a concrete input whose
transfer fails, the bridged synchronous method raises the transfer's exception
while the async method swallows it (its future is never inspected and shutdown
does not re-raise) and returns the path. -/
theorem async_upload_not_bridged_counterexample :
    (FileS3Path.async_upload_file id (fun _ => false) (fun _ => Except.ok ())
        ⟨"bkt", ⟨["dir", "obj"]⟩, 0, Flavour.posix⟩ ⟨["src"]⟩ none true).1
      ≠ (funcToAsyncFunc (fun d => FileS3Path.upload_file id (fun _ => false)
          (fun _ => Except.ok ())
          ⟨"bkt", ⟨["dir", "obj"]⟩, 0, Flavour.posix⟩ d none true) ⟨["src"]⟩).1
    ∧ (FileS3Path.async_upload_file id (fun _ => false)
        (fun _ => Except.error Err.raised)
        ⟨"bkt", ⟨["dir", "obj"]⟩, 0, Flavour.posix⟩ ⟨["src"]⟩ none true).2
      ≠ (funcToAsyncFunc (fun d => FileS3Path.upload_file id (fun _ => false)
          (fun _ => Except.error Err.raised)
          ⟨"bkt", ⟨["dir", "obj"]⟩, 0, Flavour.posix⟩ d none true) ⟨["src"]⟩).2 := by
  constructor
  · decide
  · intro h
    exact Except.noConfusion h

/-- C5 amended: `async_upload_file` implements its own transfer logic instead of
being the synchronous `upload_file` run through the `func_to_async_func`
bridge, and the two differ in error behaviour as well as in effects. First
conjunct: the async method's returned value and error behaviour coincide, on
every input, with the bridged synchronous method's *success-path* behaviour —
whatever the transfer's actual outcome, because the async path never inspects
its future and `shutdown` does not re-raise. Second conjunct: when the
overwrite/exists guard passes and the transfer fails, the synchronous primitive
surfaces the failure as the call's error while the asynchronous method still
returns the destination path. -/
theorem async_upload_result_equiv (gpk : String → String) (ex : FPath → Bool)
    (sub : S3Event → Except Err Unit)
    (st : FileS3Path) (dest : FPath) (filename : Option String) (ow : Bool) :
    ((FileS3Path.async_upload_file gpk ex sub st dest filename ow).2
      = (funcToAsyncFunc (fun d => FileS3Path.upload_file gpk ex
          (fun _ => Except.ok ()) st d filename ow) dest).2)
    ∧ (∀ e : Err, (!ow && ex dest) = false →
        sub (S3Event.botoUpload st.accessor st.bucket
            (gpk (filename.getD st.path.name)) dest.as_posix) = Except.error e →
        (FileS3Path.upload_file gpk ex sub st dest filename ow).2 = Except.error e
          ∧ (FileS3Path.async_upload_file gpk ex sub st dest filename ow).2
              = Except.ok (st.path.parent.joinpath (filename.getD st.path.name))) := by
  constructor
  · cases h : (!ow && ex dest) <;>
      simp [FileS3Path.async_upload_file, FileS3Path.upload_file, funcToAsyncFunc, h]
  · intro e hguard hsub
    constructor
    · simp [FileS3Path.upload_file, hguard, hsub]
    · simp [FileS3Path.async_upload_file, hguard]

/-- Witness for C5's amended theorem at a concrete input with a failing
transfer: the synchronous call surfaces the failure, the asynchronous call
swallows it and returns the path. -/
theorem async_upload_result_equiv_witness :
    (FileS3Path.upload_file id (fun _ => false) (fun _ => Except.error Err.raised)
        ⟨"bkt", ⟨["dir", "obj"]⟩, 0, Flavour.posix⟩ ⟨["src"]⟩ none true).2
      = Except.error Err.raised
    ∧ (FileS3Path.async_upload_file id (fun _ => false)
        (fun _ => Except.error Err.raised)
        ⟨"bkt", ⟨["dir", "obj"]⟩, 0, Flavour.posix⟩ ⟨["src"]⟩ none true).2
      = Except.ok ⟨["dir", "obj"]⟩ :=
  (async_upload_result_equiv id (fun _ => false) (fun _ => Except.error Err.raised)
    ⟨"bkt", ⟨["dir", "obj"]⟩, 0, Flavour.posix⟩ ⟨["src"]⟩ none true).2
    Err.raised rfl rfl

/-- C6 counterexample: a Path constructed from a fresh registry stores accessor
instance 0; after `invalidate "s3"` the registry serves the distinct instance 1,
yet an I/O call on the previously constructed Path still performs its boto
upload on instance 0 — the claim that every I/O call re-looks the accessor up at
call time, making invalidation instantly visible, is false. -/
theorem accessor_cached_on_path_counterexample :
    FileS3Path.new Flavour.posix Flavour.posix ⟨[], 0⟩ "bkt" ⟨["obj"]⟩
        = Except.ok (⟨"bkt", ⟨["obj"]⟩, 0, Flavour.posix⟩, ⟨[("s3", 0)], 1⟩)
    ∧ (FileS3Path.upload_file id (fun _ => false) (fun _ => Except.ok ())
        ⟨"bkt", ⟨["obj"]⟩, 0, Flavour.posix⟩ ⟨["src"]⟩ none true).1.map eventAcc = [0]
    ∧ (((⟨[("s3", 0)], 1⟩ : Registry).invalidate "s3").getAccessor "s3").1 = 1
    ∧ (0 : Nat) ≠ 1 := by
  refine ⟨rfl, rfl, rfl, by decide⟩

/-- C6 amended: the accessor reference is looked up by scheme once, at Path
construction (`_init` stores `get_accessor(self._prefix)` into
`self._accessor`), and every I/O call uses the stored reference; a later
invalidation is therefore visible only to Paths constructed after it, not to
previously constructed Path values. -/
theorem accessor_bound_at_construction (host req : Flavour) (r : Registry)
    (bucket : String) (p : FPath) (gpk : String → String) (ex : FPath → Bool)
    (sub : S3Event → Except Err Unit)
    (st : FileS3Path) (dest : FPath) (fn : Option String) (ow : Bool) :
    (∀ pr, FileS3Path.new host req r bucket p = Except.ok pr →
        pr.1.accessor = (r.getAccessor "s3").1)
    ∧ (∀ e ∈ (FileS3Path.upload_file gpk ex sub st dest fn ow).1,
        eventAcc e = st.accessor) := by
  constructor
  · intro pr h
    cases host <;>
      · simp [FileS3Path.new, isSupported] at h
        rw [← h]
  · intro e he
    cases h : (!ow && ex dest) <;> rw [FileS3Path.upload_file] at he <;> simp [h] at he
    rw [he]
    rfl

/-- Witness for C6's amended theorem at a concrete input: the accessor stored by
construction from the empty registry is the one the registry serves at that
moment. -/
theorem accessor_bound_at_construction_witness :
    (⟨"bkt", ⟨["obj"]⟩, 0, Flavour.posix⟩ : FileS3Path).accessor
      = ((⟨[], 0⟩ : Registry).getAccessor "s3").1 :=
  (accessor_bound_at_construction Flavour.posix Flavour.posix ⟨[], 0⟩ "bkt" ⟨["obj"]⟩
    id (fun _ => false) (fun _ => Except.ok ())
    ⟨"bkt", ⟨["obj"]⟩, 0, Flavour.posix⟩ ⟨["src"]⟩ none true).1
    (⟨"bkt", ⟨["obj"]⟩, 0, Flavour.posix⟩, ⟨[("s3", 0)], 1⟩) rfl

/-- C8 counterexample: requesting a Windows-flavoured I/O-capable path on a
POSIX host does not yield an off-platform value whose I/O fails with
`UnsupportedPlatform`: `__new__` coerces the class to the host flavour, so the
construction succeeds and returns a POSIX-flavoured instance; and `upload_file`
on a (manually assembled) Windows-flavoured instance performs the transfer
normally instead of failing at the I/O call site. -/
theorem platform_check_at_construction_counterexample :
    FileS3Path.new Flavour.posix Flavour.windows ⟨[], 0⟩ "bkt" ⟨["obj"]⟩
        = Except.ok (⟨"bkt", ⟨["obj"]⟩, 0, Flavour.posix⟩, ⟨[("s3", 0)], 1⟩)
    ∧ FileS3Path.upload_file id (fun _ => false) (fun _ => Except.ok ())
        ⟨"bkt", ⟨["obj"]⟩, 0, Flavour.windows⟩ ⟨["src"]⟩ none true
        = ([S3Event.botoUpload 0 "bkt" "obj" "src"], Except.ok ⟨["obj"]⟩) :=
  ⟨rfl, rfl⟩

/-- C8 amended: the flavour/host check lives in `__new__`, not at the I/O call
site: construction of an I/O-capable path is always coerced to the host's
flavour (the `NotImplementedError` branch fires only if the coerced flavour were
unsupported, which cannot happen), so construction succeeds for every
flavour/host combination and an off-platform I/O-capable instance cannot be
obtained; the I/O methods themselves consult no flavour and never fail with the
spec's `UnsupportedPlatform`. -/
theorem construction_coerces_to_host_flavour (host req : Flavour) (r : Registry)
    (b : String) (p : FPath) (gpk : String → String) (ex : FPath → Bool)
    (st : FileS3Path) (dest : FPath) (fn : Option String) (ow : Bool) :
    FileS3Path.new host req r b p
        = Except.ok (⟨b, p, (r.getAccessor "s3").1, host⟩, (r.getAccessor "s3").2)
    ∧ (FileS3Path.upload_file gpk ex (fun _ => Except.ok ()) st dest fn ow).2
        ≠ Except.error Err.unsupportedPlatform := by
  constructor
  · cases host <;> rfl
  · cases h : (!ow && ex dest) <;> simp [FileS3Path.upload_file, h]

/-- The per-entry retention predicate of the batch loops: an entry is dropped
exactly when `not overwrite and skip_existing and file.exists()`. -/
def keepEntry (ow sk : Bool) (exB : FPath → Bool) (f : FPath) : Bool :=
  !(!ow && (sk && exB f))

/-- The name of a joined path is the appended component. -/
lemma FPath.name_joinpath (p : FPath) (n : String) : (p.joinpath n).name = n := by
  simp [FPath.name, FPath.joinpath, List.getLast?_concat]

/-- With infallible collaborators the upload loop submits exactly the kept
entries, in order, and returns their destination paths, in order. -/
lemma batchUploadLoop_infallible (gpk : String → String) (exB : FPath → Bool)
    (st : FileS3Path) (ow sk : Bool) (fl : List FPath) :
    batchUploadLoop gpk (fun f => Except.ok (exB f)) (fun _ => Except.ok ()) st ow sk fl
      = ((fl.filter (keepEntry ow sk exB)).map
            (fun f => S3Event.s3tUpload st.accessor f.as_posix st.bucket (gpk f.name)),
         Except.ok ((fl.filter (keepEntry ow sk exB)).map
            (fun f => st.path.parent.joinpath f.name))) := by
  induction fl with
  | nil => rfl
  | cons f fs ih =>
    rw [batchUploadLoop]
    cases how : (!ow && sk) with
    | false =>
      have hk : keepEntry ow sk exB f = true := by
        simp only [keepEntry, ← Bool.and_assoc, how, Bool.false_and, Bool.not_false]
      simp [how, List.filter_cons, hk, ih, Except.map]
    | true =>
      cases hex : exB f with
      | true =>
        have hk : keepEntry ow sk exB f = false := by
          simp only [keepEntry, ← Bool.and_assoc, how, hex, Bool.true_and,
            Bool.not_true]
        simp [how, List.filter_cons, hk, ih]
      | false =>
        have hk : keepEntry ow sk exB f = true := by
          simp [keepEntry, hex]
        simp [how, hex, List.filter_cons, hk, ih, Except.map]

/-- C9: a `batch_upload_files` call with a (non-empty) glob pattern and
infallible collaborators returns exactly the kept expanded entries' destination
paths; the returned sequence is, elementwise, a sublist of the destination
images of the full expansion (order of the expanded source entries preserved);
each returned path's final name component equals its source's name; and a
pattern matching zero entries is not an error: the result is `ok []` with zero
transfer submissions (the trace holds only the transfer-manager creation and
shutdown). -/
theorem batch_upload_glob_contract (gpk : String → String) (exB : FPath → Bool)
    (globFn : String → List FPath) (st : FileS3Path) (pat : String)
    (ow sk : Bool) (hpat : pat.isEmpty = false) :
    (FileS3Path.batch_upload_files gpk (fun f => Except.ok (exB f))
        (fun _ => Except.ok ()) globFn st none (some pat) ow sk).2
      = Except.ok (((globFn pat).filter (keepEntry ow sk exB)).map
          (fun f => st.path.parent.joinpath f.name))
    ∧ List.Sublist
        (((globFn pat).filter (keepEntry ow sk exB)).map
          (fun f => st.path.parent.joinpath f.name))
        ((globFn pat).map (fun f => st.path.parent.joinpath f.name))
    ∧ (∀ f ∈ (globFn pat).filter (keepEntry ow sk exB),
        (st.path.parent.joinpath f.name).name = f.name)
    ∧ (globFn pat = [] →
        FileS3Path.batch_upload_files gpk (fun f => Except.ok (exB f))
            (fun _ => Except.ok ()) globFn st none (some pat) ow sk
          = ([S3Event.s3tCreate st.accessor, S3Event.s3tShutdown st.accessor],
             Except.ok [])) := by
  refine ⟨?_, ?_, ?_, ?_⟩
  · simp [FileS3Path.batch_upload_files, filesTruthy, globTruthy, hpat,
      batchUploadLoop_infallible]
  · exact (List.filter_sublist _).map _
  · intro f hf
    exact FPath.name_joinpath _ _
  · intro hempty
    simp [FileS3Path.batch_upload_files, filesTruthy, globTruthy, hpat, hempty,
      batchUploadLoop_infallible]

/-- Witness for C9 at a concrete input: one matched source, nothing skipped,
one resulting destination path. -/
theorem batch_upload_glob_contract_witness :
    (FileS3Path.batch_upload_files id (fun f => Except.ok ((fun _ => false) f))
        (fun _ => Except.ok ()) (fun _ => [⟨["logs", "a.txt"]⟩])
        ⟨"bkt", ⟨["dir"]⟩, 0, Flavour.posix⟩ none (some "*.txt") false true).2
      = Except.ok ((((fun (_ : String) => [(⟨["logs", "a.txt"]⟩ : FPath)]) "*.txt").filter
            (keepEntry false true (fun _ => false))).map
          (fun f => ((⟨"bkt", ⟨["dir"]⟩, 0, Flavour.posix⟩ : FileS3Path)).path.parent.joinpath
              f.name)) :=
  (batch_upload_glob_contract id (fun _ => false) (fun _ => [⟨["logs", "a.txt"]⟩])
    ⟨"bkt", ⟨["dir"]⟩, 0, Flavour.posix⟩ "*.txt" false true rfl).1

/-- Embedding of the accessor-reset part of `Settings.update_auth` (configs.py
lines 719-746), projected onto the sequence of schemes passed to
`FileSysManager.get_accessor(scheme, _reset=True)`. `cfg k` is the Python
truthiness of `config.get(k)`. Resets happen only when `update_fs` and only for
the scheme mapped from each truthy config key (`aws` → `s3`, `gcp` → `gs`,
`minio` → `minio`, `s3_compat` or `s3c` → `s3c`, `r2` → `r2`,
`wasabi` → `wasabi`). -/
def Settings.update_auth_resets (update_fs : Bool) (cfg : String → Bool) :
    List String :=
  if update_fs then
    (if cfg "aws" then ["s3"] else [])
    ++ (if cfg "gcp" then ["gs"] else [])
    ++ (if cfg "minio" then ["minio"] else [])
    ++ (if cfg "s3_compat" || cfg "s3c" then ["s3c"] else [])
    ++ (if cfg "r2" then ["r2"] else [])
    ++ (if cfg "wasabi" then ["wasabi"] else [])
  else []

/-- Embedding of the accessor-reset part of `AwsSettings.update_auth` (configs.py
lines 109-116): `get_accessor('s3', _reset=True)` iff `update_fs`. -/
def AwsSettings.update_auth_resets (update_fs : Bool) : List String :=
  if update_fs then ["s3"] else []

/-- Embedding of the accessor-reset part of `GcpSettings.update_auth` (configs.py
lines 198-205): `get_accessor('gs', _reset=True)` iff `update_fs`. -/
def GcpSettings.update_auth_resets (update_fs : Bool) : List String :=
  if update_fs then ["gs"] else []

/-- Embedding of the accessor-reset part of `MinioSettings.update_auth`
(configs.py lines 250-256): the reset of the `minio` accessor is unconditional —
it ignores `update_fs` and the config map, and happens even when nothing
changed. -/
def MinioSettings.update_auth_resets (update_fs : Bool) (cfg : String → Bool) :
    List String :=
  ["minio"]

/-- Embedding of the accessor-reset part of `S3CompatSettings.update_auth`
(configs.py lines 321-323): the method updates the bundle and re-exports the
environment but resets no accessor at all. -/
def S3CompatSettings.update_auth_resets (cfg : String → Bool) : List String := []

/-- C4 counterexample: updating the S3-compatible provider's credentials through
its own `update_auth` entry point invalidates nothing (the claim mandates that
the `s3c` accessor be invalidated), and `MinioSettings.update_auth` with an
empty config map — no bundle changed — still invalidates the `minio` accessor
(the claim mandates that accessors of unchanged schemes be left untouched). -/
theorem update_auth_invalidation_counterexample :
    S3CompatSettings.update_auth_resets (fun k => k == "s3_compat_access_key") = []
    ∧ MinioSettings.update_auth_resets true (fun _ => false) = ["minio"] :=
  ⟨rfl, rfl⟩

/-- Membership in a singleton guarded by a Boolean. -/
lemma mem_ite_singleton (c : Bool) (x s : String) :
    s ∈ (if c then [x] else []) ↔ c = true ∧ s = x := by
  cases c <;> simp

/-- C4 amended: invalidation is selective only in the top-level
`Settings.update_auth`, which (when `update_fs`) resets exactly the schemes
mapped from the truthy keys of the config map; the per-provider entry points
diverge: `AwsSettings`/`GcpSettings` reset their scheme iff `update_fs`,
`MinioSettings.update_auth` always resets `minio` (even when nothing changed),
and `S3CompatSettings.update_auth` resets nothing (the `s3c` accessor keeps
serving the stale credentials until some other entry point resets it). -/
theorem update_auth_selective_invalidation (update_fs : Bool)
    (cfg : String → Bool) (s : String) :
    (s ∈ Settings.update_auth_resets update_fs cfg ↔
      update_fs = true ∧
        ((cfg "aws" = true ∧ s = "s3") ∨ (cfg "gcp" = true ∧ s = "gs")
          ∨ (cfg "minio" = true ∧ s = "minio")
          ∨ ((cfg "s3_compat" || cfg "s3c") = true ∧ s = "s3c")
          ∨ (cfg "r2" = true ∧ s = "r2") ∨ (cfg "wasabi" = true ∧ s = "wasabi")))
    ∧ AwsSettings.update_auth_resets update_fs = (if update_fs then ["s3"] else [])
    ∧ GcpSettings.update_auth_resets update_fs = (if update_fs then ["gs"] else [])
    ∧ MinioSettings.update_auth_resets update_fs cfg = ["minio"]
    ∧ S3CompatSettings.update_auth_resets cfg = [] := by
  refine ⟨?_, rfl, rfl, rfl, rfl⟩
  cases update_fs with
  | false => simp [Settings.update_auth_resets]
  | true =>
    simp only [Settings.update_auth_resets, if_true, List.mem_append,
      mem_ite_singleton, true_and]
    tauto

/-- Runtime value of a settings attribute or of a keyword argument passed to
`update_config`. -/
inductive Value where
  /-- A string. -/
  | vstr (s : String)
  /-- An integer. -/
  | vint (n : Int)
  /-- A boolean. -/
  | vbool (b : Bool)
  /-- Python `None`. -/
  | vnone
  /-- A `pathlib.Path` with the given string form. -/
  | vpath (s : String)
  /-- A plain dict (the shape a nested update receives). -/
  | vdict (fields : List (String × Value))
  /-- A `BaseSettings` instance with its attribute map (the lazily built
  sub-settings objects of `Settings`: `core`, `aws`, `gcp`, …). -/
  | vsettings (fields : List (String × Value))
deriving Repr

/-- Python `pathlib.Path(v)` for the values the claims exercise; a non-path-like
value would raise `TypeError` in Python (left unmodelled: such a value is kept
unchanged here). -/
def pathCoerce : Value → Value
  | Value.vstr s => Value.vpath s
  | Value.vpath s => Value.vpath s
  | v => v

/-- `isinstance(getattr(self, k), pathlib.Path)`. -/
def Value.isPath : Value → Bool
  | Value.vpath _ => true
  | _ => false

/-- `isinstance(getattr(self, k), BaseSettings)`. -/
def Value.isSettings : Value → Bool
  | Value.vsettings _ => true
  | _ => false

/-- `setattr(self, k, v)` on an attribute map: replaces the first binding of the
key, and leaves the map unchanged when the key is absent. -/
def setField : List (String × Value) → String → Value → List (String × Value)
  | [], _, _ => []
  | (k, v) :: rest, key, nv =>
    if k = key then (k, nv) :: rest else (k, v) :: setField rest key nv

/-- Embedding of the provider-settings `update_config` loop (AwsSettings,
configs.py lines 101-107; the identical body appears in CoreSettings,
GcpSettings, MinioSettings, S3CompatSettings, GithubSettings,
HuggingfaceSettings, CloudflareR2Settings and WasabiS3Settings): for each
keyword in order, a name that is not an existing attribute is skipped
(`if not hasattr(self, k): continue`); when the current attribute value is a
`pathlib.Path` the new value is coerced through `pathlib.Path(v)`; otherwise the
value is set verbatim. -/
def AwsSettings.update_config :
    List (String × Value) → List (String × Value) → List (String × Value)
  | self, [] => self
  | self, (k, v) :: rest =>
    AwsSettings.update_config
      (match self.lookup k with
       | none => self
       | some cur =>
         if cur.isPath then setField self k (pathCoerce v) else setField self k v)
      rest

/-- Embedding of `Settings.update_config` (configs.py lines 700-707): the same
loop with one extra branch — when the current attribute value is itself a
`BaseSettings`, the keyword's value is applied as a nested
`getattr(self, k).update_config(**v)` on the sub-settings object instead of
replacing the attribute verbatim. (A non-mapping value in that branch would
raise `TypeError` in Python; unmodelled — the attribute map is returned
unchanged.) -/
def Settings.update_config :
    List (String × Value) → List (String × Value) → List (String × Value)
  | self, [] => self
  | self, (k, v) :: rest =>
    Settings.update_config
      (match self.lookup k with
       | none => self
       | some cur =>
         if cur.isPath then setField self k (pathCoerce v)
         else if cur.isSettings then
           match cur, v with
           | Value.vsettings fs, Value.vdict kw =>
             setField self k (Value.vsettings (AwsSettings.update_config fs kw))
           | _, _ => self
         else setField self k v)
      rest

/-- C10 counterexample: on the top-level `Settings` object a keyword whose
target attribute holds a sub-settings object is *not* set verbatim — the value
is applied as a nested update, so the attribute still holds a settings object,
not the dict that was passed. -/
theorem settings_update_config_nested_counterexample :
    Settings.update_config
        [("aws", Value.vsettings [("aws_region", Value.vstr "us-east-1")])]
        [("aws", Value.vdict [("aws_region", Value.vstr "eu-west-1")])]
      = [("aws", Value.vsettings [("aws_region", Value.vstr "eu-west-1")])]
    ∧ Value.vsettings [("aws_region", Value.vstr "eu-west-1")]
        ≠ Value.vdict [("aws_region", Value.vstr "eu-west-1")] :=
  ⟨rfl, fun h => Value.noConfusion h⟩

/-- Looking up the key just written by `setField`. -/
lemma lookup_setField_self (l : List (String × Value)) (k : String) (nv : Value) :
    (setField l k nv).lookup k = (l.lookup k).map (fun _ => nv) := by
  induction l with
  | nil => rfl
  | cons p rest ih =>
    rcases p with ⟨k0, v0⟩
    by_cases h : k0 = k
    · subst h
      simp [setField, List.lookup]
    · have hbe : (k == k0) = false := beq_eq_false_iff_ne.mpr (Ne.symm h)
      simp [setField, h, List.lookup, hbe, ih]

/-- `setField` leaves every other key's binding unchanged. -/
lemma lookup_setField_ne (l : List (String × Value)) (k q : String) (nv : Value)
    (h : q ≠ k) : (setField l k nv).lookup q = l.lookup q := by
  induction l with
  | nil => rfl
  | cons p rest ih =>
    rcases p with ⟨k0, v0⟩
    by_cases h0 : k0 = k
    · subst h0
      have hbe : (q == k0) = false := beq_eq_false_iff_ne.mpr h
      simp [setField, List.lookup, hbe]
    · by_cases hq : q = k0
      · subst hq
        simp [setField, h0, List.lookup]
      · have hbe : (q == k0) = false := beq_eq_false_iff_ne.mpr hq
        simp [setField, h0, List.lookup, hbe, ih]

/-- A key that is not among the fields has no binding. -/
lemma lookupNoneOfNotMem (l : List (String × Value)) (k : String)
    (h : k ∉ l.map Prod.fst) : l.lookup k = none := by
  induction l with
  | nil => rfl
  | cons p rest ih =>
    rcases p with ⟨k0, v0⟩
    simp only [List.map_cons, List.mem_cons, not_or] at h
    have hbe : (k == k0) = false := beq_eq_false_iff_ne.mpr h.1
    simp [List.lookup, hbe, ih h.2]

/-- C10 amended: for the provider-level settings objects the claim holds as
stated — `update_config` changes exactly the fields that are existing attributes
and appear in the keyword map (coercing through `pathlib.Path` when the current
value is a `Path`, otherwise verbatim), silently ignores unknown names, and
leaves every unnamed field unchanged; on the top-level `Settings`, however, a
field whose current value is a sub-settings object is updated recursively with
the passed mapping instead of being replaced verbatim. -/
theorem update_config_characterization (self kw : List (String × Value))
    (hnd : (kw.map Prod.fst).Nodup) (k : String)
    (fs kw2 : List (String × Value)) :
    ((AwsSettings.update_config self kw).lookup k
      = match self.lookup k, kw.lookup k with
        | none, _ => none
        | some cur, none => some cur
        | some cur, some v => some (if cur.isPath then pathCoerce v else v))
    ∧ Settings.update_config [("aws", Value.vsettings fs)]
          [("aws", Value.vdict kw2)]
        = [("aws", Value.vsettings (AwsSettings.update_config fs kw2))] := by
  refine ⟨?_, rfl⟩
  induction kw generalizing self with
  | nil =>
    cases hs : self.lookup k <;> simp [AwsSettings.update_config, hs]
  | cons p rest ih =>
    rcases p with ⟨k0, v0⟩
    simp only [List.map_cons, List.nodup_cons] at hnd
    by_cases hk : k = k0
    · subst hk
      have hrest : rest.lookup k = none := lookupNoneOfNotMem rest k hnd.1
      have hcons : List.lookup k ((k, v0) :: rest) = some v0 := by
        simp [List.lookup]
      cases hs : self.lookup k with
      | none =>
        have hstep : AwsSettings.update_config self ((k, v0) :: rest)
            = AwsSettings.update_config self rest := by
          rw [AwsSettings.update_config, hs]
        rw [hstep, ih _ hnd.2, hs, hrest, hcons]
      | some cur =>
        have hstep : AwsSettings.update_config self ((k, v0) :: rest)
            = AwsSettings.update_config
                (if cur.isPath then setField self k (pathCoerce v0)
                 else setField self k v0) rest := by
          rw [AwsSettings.update_config, hs]
        have hlf : (if cur.isPath then setField self k (pathCoerce v0)
            else setField self k v0).lookup k
              = some (if cur.isPath then pathCoerce v0 else v0) := by
          by_cases hp : cur.isPath = true
          · rw [if_pos hp, if_pos hp, lookup_setField_self, hs]
            rfl
          · rw [if_neg hp, if_neg hp, lookup_setField_self, hs]
            rfl
        rw [hstep, ih _ hnd.2, hlf, hrest, hcons]
    · have hlk : List.lookup k ((k0, v0) :: rest) = rest.lookup k := by
        have hbe : (k == k0) = false := beq_eq_false_iff_ne.mpr hk
        simp [List.lookup, hbe]
      cases hs : self.lookup k0 with
      | none =>
        have hstep : AwsSettings.update_config self ((k0, v0) :: rest)
            = AwsSettings.update_config self rest := by
          rw [AwsSettings.update_config, hs]
        rw [hstep, ih _ hnd.2, hlk]
      | some cur =>
        have hstep : AwsSettings.update_config self ((k0, v0) :: rest)
            = AwsSettings.update_config
                (if cur.isPath then setField self k0 (pathCoerce v0)
                 else setField self k0 v0) rest := by
          rw [AwsSettings.update_config, hs]
        have hpre :
            (if cur.isPath then setField self k0 (pathCoerce v0)
              else setField self k0 v0).lookup k = self.lookup k := by
          by_cases hp : cur.isPath = true
          · rw [if_pos hp, lookup_setField_ne _ _ _ _ hk]
          · rw [if_neg hp, lookup_setField_ne _ _ _ _ hk]
        rw [hstep, ih _ hnd.2, hpre, hlk]

/-- Witness for C10's amended theorem at a concrete input: an existing
non-`Path` attribute named in the map is replaced verbatim. -/
theorem update_config_characterization_witness :
    (AwsSettings.update_config [("aws_region", Value.vstr "us-east-1")]
        [("aws_region", Value.vstr "eu-west-1")]).lookup "aws_region"
      = some (Value.vstr "eu-west-1") :=
  (update_config_characterization [("aws_region", Value.vstr "us-east-1")]
    [("aws_region", Value.vstr "eu-west-1")] (by simp) "aws_region" [] []).1
